import Mathlib

/-!
Verification of the advice-generation fallback chain of `src/app.py`
(loan-approval advisory tool). The embedding models the three functions
`generate_ai_advice`, `generate_huggingface_advice` and
`generate_rule_based_advice` as pure Lean functions. The network and the
secret store are made explicit parameters: the outcome of the single
`requests.post` call is a value of `NetResult`, and the Hugging Face
token is passed as a `String` (the empty string means "not configured",
matching Python truthiness of `st.secrets.get("HF_API_TOKEN", "")`).
-/

/-! ### Python string primitives

Executable models of the Python string operations the code uses:
`str.strip`, `str.lower`, the substring operator `in`, `str.join` and
`str.replace`. They operate on the `List Char` view of `String`
(Python strings are sequences of code points). `Char.isWhitespace`
covers the ASCII whitespace relevant here. -/

/-- Model of Python `str.strip()`: remove leading and trailing whitespace. -/
def pyStrip (s : String) : String :=
  ⟨((s.data.dropWhile Char.isWhitespace).reverse.dropWhile Char.isWhitespace).reverse⟩

/-- Model of Python `str.lower()` (ASCII case folding). -/
def pyLower (s : String) : String :=
  ⟨s.data.map Char.toLower⟩

/-- Scan for `needle` as a contiguous sublist starting at any suffix. -/
def containsSub (needle : List Char) : List Char → Bool
  | [] => needle.isPrefixOf []
  | c :: rest => needle.isPrefixOf (c :: rest) || containsSub needle rest

/-- Model of Python `needle in hay` for strings: substring containment. -/
def pyIn (needle hay : String) : Bool :=
  containsSub needle.data hay.data

/-- Model of Python `sep.join(xs)`. -/
def pyJoin (sep : String) : List String → String
  | [] => ""
  | x :: rest => rest.foldl (fun acc y => acc ++ sep ++ y) x

/-- Fuel-driven worker for `pyReplace`. Each step consumes at least one
character of the subject when the pattern is non-empty, so fuel equal to
the subject length suffices. -/
def replFuel (p r : List Char) : Nat → List Char → List Char
  | _, [] => []
  | 0, s => s
  | n + 1, c :: rest =>
    if p.isPrefixOf (c :: rest) then
      r ++ replFuel p r n ((c :: rest).drop p.length)
    else
      c :: replFuel p r n rest

/-- Model of Python `s.replace(p, r)`: left-to-right, non-overlapping
replacement of every occurrence of `p` by `r`. (Python's behaviour for
an empty pattern — inserting `r` between every character — is not
modelled; the code only ever replaces the non-empty prompt string.) -/
def pyReplace (s p r : String) : String :=
  ⟨replFuel p.data r.data s.data.length s.data⟩

/-! ### Rule-Based Advisor (`generate_rule_based_advice`, app.py lines 129-152) -/

/-- The `if/elif` keyword chain applied to a single change string
(app.py lines 133-147): lower-case the change, test the keyword sets in
order, first match wins; `none` when no set matches. -/
def classifyChange (change : String) : Option String :=
  let change_lower := pyLower change
  if ["income", "salary", "revenue"].any (fun w => pyIn w change_lower) then
    some "‚Ä¢ Increase verifiable income sources through employment documents or business records"
  else if ["debt", "loan", "liability"].any (fun w => pyIn w change_lower) then
    some "‚Ä¢ Reduce existing debt-to-income ratio by paying down current obligations"
  else if ["credit", "score", "history"].any (fun w => pyIn w change_lower) then
    some "‚Ä¢ Improve credit history by ensuring all existing accounts are in good standing"
  else if ["collateral", "asset", "property"].any (fun w => pyIn w change_lower) then
    some "‚Ä¢ Provide additional collateral documentation to strengthen your application"
  else if ["guarantor", "co-signer"].any (fun w => pyIn w change_lower) then
    some "‚Ä¢ Consider adding a creditworthy guarantor to support your application"
  else if ["employment", "job", "business"].any (fun w => pyIn w change_lower) then
    some "‚Ä¢ Demonstrate stable employment or business history with documentation"
  else
    none

/-- The `advice` list accumulated by the `for` loop of
`generate_rule_based_advice`: one line per matching change, in input
order. -/
def advice_list (changes : List String) : List String :=
  changes.filterMap classifyChange

/-- Embedding of `generate_rule_based_advice(changes, loan_type)`
(app.py lines 129-152). -/
def generate_rule_based_advice (changes : List String) (loan_type : String) : String :=
  let advice := advice_list changes
  if advice ≠ [] then
    "For your " ++ loan_type ++ " application, I recommend:\n\n" ++ pyJoin "\n" advice
  else
    "For " ++ loan_type ++ " applications, focus on improving income verification, reducing existing debts, and providing strong collateral documentation."

/-! ### Model capability (`generate_huggingface_advice`, app.py lines 93-127) -/

/-- One element of a JSON-list response body: it either carries a
`generated_text` string field or it does not. -/
structure HFItem where
  generated_text : Option String
deriving DecidableEq

/-- A decoded JSON response body. `asList` is `some items` when the body
is a JSON list (`isinstance(result, list)`), otherwise `none`;
`reprStr` is the Python `str(result)` rendering used on the malformed
branch. -/
structure HFBody where
  asList : Option (List HFItem)
  reprStr : String
deriving DecidableEq

/-- Outcome of the single `requests.post` call: either the call (or
JSON decoding) raised — covering network faults and the 30s timeout —
or a decoded response with its HTTP status code arrived. -/
inductive NetResult where
  | exn (msg : String)
  | resp (status : Nat) (body : HFBody)
deriving DecidableEq

/-- The prompt f-string of app.py lines 100-102, byte-for-byte: the
category and the comma-joined changes are interpolated verbatim. -/
def hfPrompt (changes : List String) (loan_type : String) : String :=
  "As a financial advisor, provide 2-3 brief suggestions for a " ++ loan_type ++
    " applicant based on these desired changes: " ++ pyJoin ", " changes ++
    ".\n    \nProvide practical, actionable advice in simple language. Focus on how these changes improve approval chances."

/-- Embedding of `generate_huggingface_advice(changes, loan_type, api_token)`
(app.py lines 93-127). `Except.error` models the function raising
(the re-raised `Exception(f"Hugging Face error: ...")`); `Except.ok`
models a normal `return`. The `api_token` only feeds the request
headers and does not influence the returned value. -/
def generate_huggingface_advice (changes : List String) (loan_type : String)
    (_api_token : String) (net : NetResult) : Except String String :=
  let prompt := hfPrompt changes loan_type
  match net with
  | .exn msg => .error ("Hugging Face error: " ++ msg)
  | .resp status body =>
    if status = 200 then
      match body.asList with
      | some (item :: _) =>
        match item.generated_text with
        | some g => .ok (pyStrip (pyReplace g prompt ""))
        | none => .ok body.reprStr
      | _ => .ok body.reprStr
    else
      .ok ("API error: " ++ Nat.repr status)

/-! ### Advice Orchestrator (`generate_ai_advice`, app.py lines 72-91) -/

/-- The cleaning comprehension of app.py line 77:
`[change.strip() for change in changes if change.strip()]`. -/
def cleanChanges (changes : List String) : List String :=
  (changes.map pyStrip).filter (fun s => s ≠ "")

/-- Embedding of `generate_ai_advice(changes, loan_type)` (app.py lines
72-91). `hf_token` is the value of `st.secrets.get("HF_API_TOKEN", "")`
(empty string = not configured); `net` is what the network would answer
if the model capability were invoked. The bare `except: pass` of line
87-88 maps an `Except.error` result to the rule-based fallback. -/
def generate_ai_advice (changes : List String) (loan_type hf_token : String)
    (net : NetResult) : String :=
  let cs := cleanChanges changes
  if cs = [] then
    "Please provide specific changes to get advice."
  else if hf_token ≠ "" then
    match generate_huggingface_advice cs loan_type hf_token net with
    | .ok s => s
    | .error _ => generate_rule_based_advice cs loan_type
  else
    generate_rule_based_advice cs loan_type

/-! ### Spec-side definitions

`specRuleTable`/`tableClassify` restate the keyword chain as an ordered
rule table with first-match-wins lookup (the shape the spec describes),
to be compared with `classifyChange` taken from the source.
`ruleTemplate` captures that the category only fills a hole in text
framing computed from the changes alone. -/

/-- The ordered rule table: keyword set paired with its advisory line,
in the precedence order of the source's `if/elif` chain. -/
def specRuleTable : List (List String × String) :=
  [ (["income", "salary", "revenue"],
     "‚Ä¢ Increase verifiable income sources through employment documents or business records"),
    (["debt", "loan", "liability"],
     "‚Ä¢ Reduce existing debt-to-income ratio by paying down current obligations"),
    (["credit", "score", "history"],
     "‚Ä¢ Improve credit history by ensuring all existing accounts are in good standing"),
    (["collateral", "asset", "property"],
     "‚Ä¢ Provide additional collateral documentation to strengthen your application"),
    (["guarantor", "co-signer"],
     "‚Ä¢ Consider adding a creditworthy guarantor to support your application"),
    (["employment", "job", "business"],
     "‚Ä¢ Demonstrate stable employment or business history with documentation") ]

/-- First-match-wins lookup in the rule table: the advisory line of the
first rule whose keyword set has a member occurring in the lower-cased
change, `none` if no rule matches. -/
def tableClassify (change : String) : Option String :=
  (specRuleTable.find? (fun rule => rule.1.any (fun w => pyIn w (pyLower change)))).map Prod.snd

/-- Text framing with a hole for the category value. -/
structure CatFrame where
  pre : String
  post : String

/-- The framing `generate_rule_based_advice` puts around the category,
computed from the changes alone. -/
def ruleTemplate (changes : List String) : CatFrame :=
  if advice_list changes ≠ [] then
    ⟨"For your ", " application, I recommend:\n\n" ++ pyJoin "\n" (advice_list changes)⟩
  else
    ⟨"For ", " applications, focus on improving income verification, reducing existing debts, and providing strong collateral documentation."⟩

/-! ### Helper lemmas -/

/-- `generate_rule_based_advice` is the category spliced into a frame
that does not depend on the category. -/
lemma rule_template_eq (changes : List String) (c : String) :
    generate_rule_based_advice changes c =
      (ruleTemplate changes).pre ++ c ++ (ruleTemplate changes).post := by
  unfold generate_rule_based_advice ruleTemplate
  by_cases h : advice_list changes = [] <;> simp [h, String.append_assoc]

/-- The rule-based advisor never returns the empty string. -/
lemma rule_based_ne_empty (changes : List String) (c : String) :
    generate_rule_based_advice changes c ≠ "" := by
  rw [rule_template_eq]
  intro h
  have hlen := congrArg String.length h
  rw [String.length_append, String.length_append] at hlen
  unfold ruleTemplate at hlen
  by_cases hadv : advice_list changes = [] <;> simp [hadv] at hlen
  · have h4 : ("For " : String).length = 4 := rfl
    omega
  · have h9 : ("For your " : String).length = 9 := rfl
    omega

/-- A list is a Boolean prefix of itself followed by anything. -/
lemma isPrefixOf_append_self (p s : List Char) : p.isPrefixOf (p ++ s) = true := by
  induction p with
  | nil => simp [List.isPrefixOf]
  | cons a as ih => simp [List.isPrefixOf, ih]

/-- A Boolean prefix is no longer than the list it prefixes. -/
lemma isPrefixOf_length_le (p s : List Char) (h : p.isPrefixOf s = true) :
    p.length ≤ s.length := by
  induction p generalizing s with
  | nil => simp
  | cons a as ih =>
    cases s with
    | nil => simp [List.isPrefixOf] at h
    | cons b bs =>
      simp only [List.isPrefixOf, Bool.and_eq_true] at h
      have := ih bs h.2
      simp only [List.length_cons]
      omega

/-- When the subject is shorter than the pattern, `replFuel` changes
nothing, whatever the fuel. -/
lemma replFuel_no_match (p r : List Char) (n : Nat) (s : List Char)
    (h : s.length < p.length) : replFuel p r n s = s := by
  induction n generalizing s with
  | zero => cases s <;> simp [replFuel]
  | succ n ih =>
    cases s with
    | nil => simp [replFuel]
    | cons c rest =>
      have hpre : p.isPrefixOf (c :: rest) = false := by
        cases hb : p.isPrefixOf (c :: rest)
        · rfl
        · have := isPrefixOf_length_le p (c :: rest) hb
          omega
      simp only [replFuel, hpre, Bool.false_eq_true, if_false]
      have : rest.length < p.length := by
        simp only [List.length_cons] at h
        omega
      rw [ih rest this]

/-- Replacing a non-empty pattern inside `pattern ++ tail`, with the
tail shorter than the pattern, removes exactly the leading pattern. -/
lemma replFuel_strip (p r s : List Char) (hp : p ≠ [])
    (hs : s.length < p.length) :
    replFuel p r (p ++ s).length (p ++ s) = r ++ s := by
  obtain ⟨a, p', rfl⟩ : ∃ a p', p = a :: p' := by
    cases p with
    | nil => exact absurd rfl hp
    | cons a p' => exact ⟨a, p', rfl⟩
  rw [List.cons_append, List.length_cons]
  have hpre := isPrefixOf_append_self (a :: p') s
  rw [List.cons_append] at hpre
  simp only [replFuel, hpre, if_true]
  have hdrop : (a :: (p' ++ s)).drop (a :: p').length = s := by
    rw [← List.cons_append]
    exact List.drop_left (a :: p') s
  rw [hdrop, replFuel_no_match _ _ _ _ hs]

/-- String-level version of `replFuel_strip` for the model of
`str.replace`. -/
lemma pyReplace_strip (p s r : String) (hp : p.data ≠ [])
    (hs : s.data.length < p.data.length) :
    pyReplace (p ++ s) p r = r ++ s := by
  unfold pyReplace
  apply String.ext
  show replFuel p.data r.data (p ++ s).data.length (p ++ s).data = (r ++ s).data
  rw [String.data_append, String.data_append]
  exact replFuel_strip p.data r.data s.data hp hs

/-- The prompt always has more than 13 characters (its fixed leading
text alone is 61 characters long). -/
lemma hfPrompt_long (cs : List String) (c : String) :
    13 < (hfPrompt cs c).data.length := by
  unfold hfPrompt
  rw [String.data_append, String.data_append, String.data_append, String.data_append,
    List.length_append, List.length_append, List.length_append, List.length_append]
  have h61 : 13 < ("As a financial advisor, provide 2-3 brief suggestions for a " : String).data.length := by decide
  omega

/-- The prompt is never the empty string. -/
lemma hfPrompt_ne_nil (cs : List String) (c : String) : (hfPrompt cs c).data ≠ [] := by
  intro h
  have := hfPrompt_long cs c
  rw [h] at this
  simp at this

/-! ### Claims about the Rule-Based Advisor -/

/-- Claim C2, counterexample: the change "better job", lower-cased,
contains none of the fifteen keywords of the five sets the claim lists,
yet it contributes an advisory line (the employment rule of app.py line
146-147, a sixth keyword set the claim omits). -/
theorem c2_counterexample :
    (["income", "salary", "revenue", "debt", "loan", "liability", "credit", "score",
      "history", "collateral", "asset", "property", "guarantor", "co-signer"].all
        (fun w => !pyIn w (pyLower "better job"))) = true ∧
    advice_list ["better job"] =
      ["‚Ä¢ Demonstrate stable employment or business history with documentation"] := by
  constructor <;> decide

/-- Claim C2 as amended: each change string is lower-cased and tested
against exactly six fixed keyword sets in precedence order — the five
the claim lists plus a sixth (employment/job/business) — with the first
matching set winning per change, a matching change yielding exactly one
advisory line, and a change matching none of the six contributing no
line. Stated as: the source's `if/elif` chain equals first-match-wins
lookup in the ordered six-row rule table. -/
theorem c2_amended_rule_table (change : String) :
    classifyChange change = tableClassify change := by
  unfold tableClassify specRuleTable classifyChange
  dsimp only
  split_ifs <;> simp [List.find?, *]

/-- Claim C7: if zero changes match any keyword set,
`generate_rule_based_advice` returns the single generic fallback
sentence naming the supplied loan category. -/
theorem c7_no_match_generic_fallback (changes : List String) (c : String)
    (h : advice_list changes = []) :
    generate_rule_based_advice changes c =
      "For " ++ c ++ " applications, focus on improving income verification, reducing existing debts, and providing strong collateral documentation." := by
  unfold generate_rule_based_advice
  simp [h]

/-- Witness for C7 at the claim's concrete input: `["paint the house"]`
matches no rule, and the result is exactly the generic fallback sentence
containing the category "Home Loan". -/
theorem c7_no_match_generic_fallback_witness :
    advice_list ["paint the house"] = [] ∧
    generate_rule_based_advice ["paint the house"] "Home Loan" =
      "For " ++ "Home Loan" ++ " applications, focus on improving income verification, reducing existing debts, and providing strong collateral documentation." :=
  ⟨by decide, c7_no_match_generic_fallback ["paint the house"] "Home Loan" (by decide)⟩

/-- Claim C8: the loan category never affects which rules match or the
control flow of the rule-based advisor. For any two categories the
advisory-line sequence is the same term `advice_list changes` (computed
without the category), and both outputs are the same category-free
frame `ruleTemplate changes` with the respective category spliced into
its hole. -/
theorem c8_category_noninterference (changes : List String) (c1 c2 : String) :
    generate_rule_based_advice changes c1 =
      (ruleTemplate changes).pre ++ c1 ++ (ruleTemplate changes).post ∧
    generate_rule_based_advice changes c2 =
      (ruleTemplate changes).pre ++ c2 ++ (ruleTemplate changes).post :=
  ⟨rule_template_eq changes c1, rule_template_eq changes c2⟩

/-- Claim C9: `generate_rule_based_advice` is a pure deterministic
function — two invocations on identical argument tuples yield identical
output (the embedding is a function of its arguments alone; the source
reads no external state in this function). -/
theorem c9_pure_deterministic (cs1 cs2 : List String) (c1 c2 : String)
    (h1 : cs1 = cs2) (h2 : c1 = c2) :
    generate_rule_based_advice cs1 c1 = generate_rule_based_advice cs2 c2 := by
  rw [h1, h2]

/-- Witness for C9 at a concrete argument tuple. -/
theorem c9_pure_deterministic_witness :
    generate_rule_based_advice ["increase income"] "Home Loan" =
      generate_rule_based_advice ["increase income"] "Home Loan" :=
  c9_pure_deterministic ["increase income"] ["increase income"] "Home Loan" "Home Loan" rfl rfl

/-- Claim C10: for every non-empty changes list and every category, the
output of `generate_rule_based_advice` contains the category value
verbatim (as a contiguous substring), in both the matched and the
no-match branch. -/
theorem c10_category_verbatim (changes : List String) (c : String)
    (h : changes ≠ []) :
    List.IsInfix c.data (generate_rule_based_advice changes c).data := by
  rw [rule_template_eq]
  refine ⟨(ruleTemplate changes).pre.data, (ruleTemplate changes).post.data, ?_⟩
  rw [String.data_append, String.data_append]

/-- Witness for C10 at a concrete input (matched branch). -/
theorem c10_category_verbatim_witness :
    (["increase income"] : List String) ≠ [] ∧
    List.IsInfix ("SME Loan".data) (generate_rule_based_advice ["increase income"] "SME Loan").data :=
  ⟨by decide, c10_category_verbatim ["increase income"] "SME Loan" (by decide)⟩

/-! ### Claims about the Advice Orchestrator -/

/-- Claim C1, counterexample: with a token configured and the model
endpoint answering HTTP 500, `generate_ai_advice` returns the raw error
text "API error: 500" to the caller instead of the rule-based advice
(app.py line 124 returns that string normally, so the `except` of line
87 never fires). -/
theorem c1_counterexample :
    generate_ai_advice ["x"] "Home Loan" "tok" (.resp 500 ⟨none, "r"⟩) = "API error: 500" ∧
    generate_rule_based_advice ["x"] "Home Loan" ≠ "API error: 500" := by
  constructor <;> decide

/-- Claim C1 as amended: only a thrown exception or timeout during the
model invocation triggers the rule-based fallback; a non-200 HTTP
status makes `generate_ai_advice` return the raw string
"API error: <status>", and a 200 response whose payload is not a JSON
list makes it return the payload's string representation — both
surfaced to the caller without fallback. -/
theorem c1_amended_fallback_only_on_exception (changes : List String)
    (c tok msg : String) (status : Nat) (body body2 : HFBody)
    (htok : tok ≠ "") (hcs : cleanChanges changes ≠ []) (hst : status ≠ 200)
    (hmal : body2.asList = none) :
    generate_ai_advice changes c tok (.exn msg) =
      generate_rule_based_advice (cleanChanges changes) c ∧
    generate_ai_advice changes c tok (.resp status body) =
      "API error: " ++ Nat.repr status ∧
    generate_ai_advice changes c tok (.resp 200 body2) = body2.reprStr := by
  unfold generate_ai_advice generate_huggingface_advice
  simp [hcs, htok, hst, hmal]

/-- Witness for the amended C1 at concrete inputs. -/
theorem c1_amended_fallback_only_on_exception_witness :
    generate_ai_advice ["x"] "Home Loan" "tok" (.exn "timeout") =
      generate_rule_based_advice (cleanChanges ["x"]) "Home Loan" ∧
    generate_ai_advice ["x"] "Home Loan" "tok" (.resp 503 ⟨none, "r"⟩) =
      "API error: " ++ Nat.repr 503 ∧
    generate_ai_advice ["x"] "Home Loan" "tok" (.resp 200 ⟨none, "str of result"⟩) =
      (⟨none, "str of result"⟩ : HFBody).reprStr :=
  c1_amended_fallback_only_on_exception ["x"] "Home Loan" "tok" "timeout" 503
    ⟨none, "r"⟩ ⟨none, "str of result"⟩ (by decide) (by decide) (by decide) rfl

/-- Claim C4: with no credential configured (empty token),
`generate_ai_advice` returns exactly `generate_rule_based_advice` on
the same arguments, for every non-empty (already clean) changes list,
any category and any behaviour `net` of the network — the quantification
over `net` expressing that no model invocation influences the result. -/
theorem c4_no_token_rule_based (changes : List String) (c : String) (net : NetResult)
    (h1 : changes ≠ []) (h2 : cleanChanges changes = changes) :
    generate_ai_advice changes c "" net = generate_rule_based_advice changes c := by
  unfold generate_ai_advice
  rw [h2]
  simp [h1]

/-- Witness for C4 at a concrete input. -/
theorem c4_no_token_rule_based_witness :
    (["increase income"] : List String) ≠ [] ∧
    cleanChanges ["increase income"] = ["increase income"] ∧
    generate_ai_advice ["increase income"] "Home Loan" "" (.exn "unreachable") =
      generate_rule_based_advice ["increase income"] "Home Loan" :=
  ⟨by decide, by decide,
    c4_no_token_rule_based ["increase income"] "Home Loan" (.exn "unreachable")
      (by decide) (by decide)⟩

/-- Claim C5: when the changes list is empty or every entry is
whitespace-only (its cleaned form is empty), `generate_ai_advice`
returns the input-required message for every token and every network
behaviour; the result being one constant for all `net` (second
conjunct) expresses that the model capability is never invoked. -/
theorem c5_blank_input_message (changes : List String) (c tok : String)
    (net net2 : NetResult) (h : cleanChanges changes = []) :
    generate_ai_advice changes c tok net = "Please provide specific changes to get advice." ∧
    generate_ai_advice changes c tok net = generate_ai_advice changes c tok net2 := by
  unfold generate_ai_advice
  simp [h]

/-- Witness for C5 at a concrete all-blank input with a configured
token. -/
theorem c5_blank_input_message_witness :
    cleanChanges ["  ", ""] = [] ∧
    generate_ai_advice ["  ", ""] "Home Loan" "tok" (.resp 200 ⟨none, "r"⟩) =
      "Please provide specific changes to get advice." :=
  ⟨by decide,
    (c5_blank_input_message ["  ", ""] "Home Loan" "tok" (.resp 200 ⟨none, "r"⟩)
      (.exn "m") (by decide)).1⟩

set_option maxRecDepth 40000 in
/-- Claim C3, counterexample: on the model-success path there is no
non-empty check — when the model echoes exactly the prompt, the
stripped result is the empty string and `generate_ai_advice` returns
it, even though the changes list is non-empty. -/
theorem c3_counterexample :
    cleanChanges ["x"] ≠ [] ∧
    generate_ai_advice ["x"] "Home Loan" "tok"
      (.resp 200 ⟨some [⟨some (hfPrompt ["x"] "Home Loan")⟩], "r"⟩) = "" := by
  constructor <;> decide

/-- Claim C3 as amended: for every changes list that is non-empty after
trimming and filtering blanks, `generate_ai_advice` returns a non-empty
string on the no-credential path, the exception-fallback path and the
non-200 path — but on the 200 success path the prompt-stripped text is
returned with no non-empty check, so the overall result can be empty. -/
theorem c3_amended_nonempty_off_success_path (changes : List String)
    (c tok msg : String) (status : Nat) (body : HFBody) (net : NetResult)
    (hcs : cleanChanges changes ≠ []) (htok : tok ≠ "") (hst : status ≠ 200) :
    generate_ai_advice changes c "" net ≠ "" ∧
    generate_ai_advice changes c tok (.exn msg) ≠ "" ∧
    generate_ai_advice changes c tok (.resp status body) ≠ "" := by
  refine ⟨?_, ?_, ?_⟩
  · unfold generate_ai_advice
    simp [hcs]
    exact rule_based_ne_empty _ _
  · unfold generate_ai_advice generate_huggingface_advice
    simp [hcs, htok]
    exact rule_based_ne_empty _ _
  · unfold generate_ai_advice generate_huggingface_advice
    rw [if_neg hcs, if_pos htok]
    dsimp only
    rw [if_neg hst]
    dsimp only
    intro h
    have hlen := congrArg String.length h
    rw [String.length_append] at hlen
    have h11 : ("API error: " : String).length = 11 := by decide
    have h0 : ("" : String).length = 0 := by decide
    omega

/-- Witness for the amended C3 at concrete inputs. -/
theorem c3_amended_nonempty_off_success_path_witness :
    generate_ai_advice ["pay off loan"] "Auto Loan" "" (.exn "m") ≠ "" ∧
    generate_ai_advice ["pay off loan"] "Auto Loan" "tok" (.exn "m") ≠ "" ∧
    generate_ai_advice ["pay off loan"] "Auto Loan" "tok" (.resp 404 ⟨none, "r"⟩) ≠ "" :=
  c3_amended_nonempty_off_success_path ["pay off loan"] "Auto Loan" "tok" "m" 404
    ⟨none, "r"⟩ (.exn "m") (by decide) (by decide) (by decide)

/-- Claim C6: when the model answers 200 with a first list element whose
generated-text field is the prompt followed by " Advice: do X",
`generate_ai_advice` strips the echoed prompt, trims whitespace, and
returns exactly "Advice: do X" — no prompt text remains. -/
theorem c6_prompt_echo_stripped (changes : List String) (c tok reprS : String)
    (rest : List HFItem) (htok : tok ≠ "") (hcs : cleanChanges changes ≠ []) :
    generate_ai_advice changes c tok
      (.resp 200 ⟨some (⟨some (hfPrompt (cleanChanges changes) c ++ " Advice: do X")⟩ :: rest), reprS⟩)
      = "Advice: do X" := by
  unfold generate_ai_advice generate_huggingface_advice
  simp [hcs, htok]
  have hs : (" Advice: do X" : String).data.length < (hfPrompt (cleanChanges changes) c).data.length := by
    have hlong := hfPrompt_long (cleanChanges changes) c
    have h13 : (" Advice: do X" : String).data.length = 13 := by decide
    omega
  rw [pyReplace_strip _ _ _ (hfPrompt_ne_nil _ _) hs]
  decide

/-- Witness for C6 at a concrete input. -/
theorem c6_prompt_echo_stripped_witness :
    ("tok" : String) ≠ "" ∧ cleanChanges ["x"] ≠ [] ∧
    generate_ai_advice ["x"] "Home Loan" "tok"
      (.resp 200 ⟨some [⟨some (hfPrompt (cleanChanges ["x"]) "Home Loan" ++ " Advice: do X")⟩], "r"⟩)
      = "Advice: do X" :=
  ⟨by decide, by decide,
    c6_prompt_echo_stripped ["x"] "Home Loan" "tok" "r" [] (by decide) (by decide)⟩
